import Mathlib

/-!
Verification of the receipt-interpretation pipeline of
`backend/receipt_processor.py` (RupeeFlow expense tracker).

The Python functions are shallowly embedded over `List Char` / `String`:

* Monetary amounts are modelled in exact paise (`Nat`): every number the
  source can capture is a non-negative decimal with at most two fraction
  digits, so `float` parsing and `max` comparisons are represented exactly
  by integers scaled by 100.
* The regular expressions of the source are small enough that each is
  translated into a direct scanner with the same leftmost-match,
  greedy-with-pinned-backtracking semantics; each scanner is documented
  with the regex it implements.
* Python's `str.lower`, `\d`, `\s` and `[A-Za-z]` are modelled on the
  ASCII range (the keyword tables and format strings of the source are
  ASCII; non-ASCII case folding and non-ASCII Unicode digits are outside
  the model).
* Image dimensions are `Nat`; `int(w * (1200 / m))` is modelled by the
  exact rational floor `w * 1200 / m` (Nat division).
-/

namespace RupeeFlow

/-- ASCII lower-casing of one character, the fragment of Python `str.lower`
exercised by the source. -/
def lowerCh (c : Char) : Char :=
  if 'A' ≤ c && c ≤ 'Z' then Char.ofNat (c.toNat + 32) else c

/-- ASCII lower-casing of a character list. -/
def lowerL (cs : List Char) : List Char := cs.map lowerCh

/-- Python `\d` (restricted to ASCII). -/
def isDigitCh (c : Char) : Bool := '0' ≤ c && c ≤ '9'

/-- Python `\s` (restricted to ASCII whitespace). -/
def isWsCh (c : Char) : Bool :=
  c = ' ' || c = '\t' || c = '\n' || c = '\r' || c = '\x0b' || c = '\x0c'

/-- The regex class `[A-Za-z]`. -/
def isAlphaCh (c : Char) : Bool :=
  ('A' ≤ c && c ≤ 'Z') || ('a' ≤ c && c ≤ 'z')

/-- Does `hay` start with `needle`? (plain character equality). -/
def startsL : List Char → List Char → Bool
  | [], _ => true
  | _ :: _, [] => false
  | n :: ns, h :: hs => n = h && startsL ns hs

/-- Python substring containment `needle in hay`. -/
def hasSub (hay needle : List Char) : Bool :=
  match hay with
  | [] => needle.isEmpty
  | _ :: rest => startsL needle hay || hasSub rest needle

/-- `needle in hay` on strings. -/
def strHasSub (hay needle : String) : Bool := hasSub hay.data needle.data

/-- Decimal value of a digit list. -/
def digitsToNat (ds : List Char) : Nat :=
  ds.foldl (fun a c => 10 * a + (c.toNat - '0'.toNat)) 0

/-- The `(?:,\d{3})*` part of the currency-number regex: greedily consume
repeated groups of a comma followed by exactly three digits, returning the
collected digits and the remaining input. -/
def grabGroups : List Char → (List Char × List Char)
  | ',' :: a :: b :: c :: rest =>
    if isDigitCh a && isDigitCh b && isDigitCh c then
      let (ds, r) := grabGroups rest
      (a :: b :: c :: ds, r)
    else ([], ',' :: a :: b :: c :: rest)
  | cs => ([], cs)

/-- The capture group `(\d{1,3}(?:,\d{3})*(?:\.\d{2})?)` of
`extract_amount`, matched at the head of the input.  Returns the parsed
value in paise together with the rest of the input, or `none` when no
digit starts here.  `\d{1,3}` greedily takes up to three leading digits;
the optional groups can match empty, so true regex backtracking never
changes the result. -/
def parseNumTail (ds rest : List Char) : Nat × List Char :=
  let (gds, rest1) := grabGroups rest
  let intVal := digitsToNat (ds ++ gds)
  match rest1 with
  | '.' :: a :: b :: rest2 =>
    if isDigitCh a && isDigitCh b then
      (intVal * 100 + 10 * (a.toNat - '0'.toNat) + (b.toNat - '0'.toNat), rest2)
    else (intVal * 100, rest1)
  | _ => (intVal * 100, rest1)

def parseNumAt (cs : List Char) : Option (Nat × List Char) :=
  let ds := (cs.takeWhile isDigitCh).take 3
  if ds.isEmpty then none
  else some (parseNumTail ds (cs.drop ds.length))

/-- The alternation of `total_patterns[0]` in `extract_amount`
(source order, including the duplicated `grand total`). -/
def totalLabels1 : List (List Char) :=
  ["grand total".data, "grandtotal".data, "net amount".data,
   "amount payable".data, "amount to pay".data, "total amount".data,
   "bill total".data, "grand total".data]

/-- The alternation of `total_patterns[1]`: a bare `total`. -/
def totalLabels2 : List (List Char) := ["total".data]

/-- Case-insensitive prefix match of an (already lower-case) label against
the input; returns the input after the label.  Models `re.IGNORECASE`
matching of the ASCII literals of the source. -/
def matchCI : List Char → List Char → Option (List Char)
  | [], hay => some hay
  | _ :: _, [] => none
  | n :: ns, h :: hs => if lowerCh h = n then matchCI ns hs else none

/-- After a label: `[:\s]*₹?\s*` and then the currency number;
models the tail of both total patterns. -/
def afterLabelNum (cs : List Char) : Option Nat :=
  let cs1 := cs.dropWhile (fun c => c = ':' || isWsCh c)
  let cs2 := if cs1.head? = some '₹' then cs1.tail.dropWhile isWsCh else cs1
  (parseNumAt cs2).map (·.1)

/-- Try every label of the alternation, in source order, at this position. -/
def tryLabelsAt : List (List Char) → List Char → Option Nat
  | [], _ => none
  | l :: ls, cs =>
    match matchCI l cs with
    | some rest =>
      match afterLabelNum rest with
      | some v => some v
      | none => tryLabelsAt ls cs
    | none => tryLabelsAt ls cs

/-- `re.search` of a labelled-total pattern: leftmost position at which
some alternative matches. -/
def searchLabeled (labels : List (List Char)) : List Char → Option Nat
  | [] => none
  | c :: rest =>
    match tryLabelsAt labels (c :: rest) with
    | some v => some v
    | none => searchLabeled labels rest

/-- `re.findall(r'₹?\s*(\d{1,3}(?:,\d{3})*(?:\.\d{2})?)', text)` in the
fallback of `extract_amount`: every capture, left to right,
non-overlapping.  The optional `₹?\s*` prefix never changes the captured
number, so captures start exactly at unconsumed digits.  Fuel = input
length guarantees structural termination. -/
def findallGo : Nat → List Char → List Nat
  | 0, _ => []
  | _, [] => []
  | fuel + 1, c :: rest =>
    if isDigitCh c then
      match parseNumAt (c :: rest) with
      | some (v, r) => v :: findallGo fuel r
      | none => findallGo fuel rest
    else findallGo fuel rest

def findallNums (cs : List Char) : List Nat := findallGo cs.length cs

/-- Python `max` over the collected amounts (all values non-negative). -/
def maxList (l : List Nat) : Nat := l.foldl Nat.max 0

/-- `ReceiptProcessor.extract_amount` (receipt_processor.py lines 157-181),
value in paise.  Labelled totals first (specific labels, then a bare
`total`), then the largest currency-like number anywhere, else `None`.
`float(...)` of a captured group never throws, so the `except: continue`
branches are dead. -/
def extract_amount (text : String) : Option Nat :=
  match searchLabeled totalLabels1 text.data with
  | some v => some v
  | none =>
    match searchLabeled totalLabels2 text.data with
    | some v => some v
    | none =>
      match findallNums text.data with
      | [] => none
      | l => some (maxList l)

/-! ## Date extraction (`extract_date`, lines 183-206)

The three patterns of `date_patterns`, with `re.search` leftmost-match
semantics.  In each pattern a `\d{1,2}` (or `\d{4}`) group is immediately
followed by a literal separator class, which pins its length to the full
digit run at that position, so no residual backtracking is possible; the
final group is greedy with nothing after it. -/

/-- The regex separator class: dash or slash. -/
def isSepCh (c : Char) : Bool := c = '-' || c = '/'

/-- Pattern `(\d{1,2}) sep (\d{1,2}) sep (\d{2,4})` with separator class dash-or-slash matched at this
position. -/
def matchA_at (cs : List Char) : Option (List Char × List Char × List Char) :=
  let d1 := cs.takeWhile isDigitCh
  if d1.length = 0 || 2 < d1.length then none
  else
    match cs.drop d1.length with
    | s1 :: cs1 =>
      if isSepCh s1 then
        let d2 := cs1.takeWhile isDigitCh
        if d2.length = 0 || 2 < d2.length then none
        else
          match cs1.drop d2.length with
          | s2 :: cs2 =>
            if isSepCh s2 then
              let d3 := cs2.takeWhile isDigitCh
              if d3.length < 2 then none else some (d1, d2, d3.take 4)
            else none
          | [] => none
      else none
    | [] => none

def searchA : List Char → Option (List Char × List Char × List Char)
  | [] => none
  | c :: rest =>
    match matchA_at (c :: rest) with
    | some g => some g
    | none => searchA rest

/-- Case-insensitive three-letter month names of pattern 2 (the group is
non-capturing in the source). -/
def monthNames : List (List Char) :=
  ["jan".data, "feb".data, "mar".data, "apr".data, "may".data, "jun".data,
   "jul".data, "aug".data, "sep".data, "oct".data, "nov".data, "dec".data]

def matchMonthName : List (List Char) → List Char → Option (List Char)
  | [], _ => none
  | m :: ms, cs =>
    match matchCI m cs with
    | some rest => some rest
    | none => matchMonthName ms cs

/-- Pattern `(\d{1,2})\s(?:Jan|...|Dec)[a-z]*[\s,]*(\d{2,4})` matched at
this position (two capture groups only: the month name is not captured). -/
def matchB_at (cs : List Char) : Option (List Char × List Char) :=
  let d1 := cs.takeWhile isDigitCh
  if d1.length = 0 || 2 < d1.length then none
  else
    match cs.drop d1.length with
    | w :: cs1 =>
      if isWsCh w then
        match matchMonthName monthNames cs1 with
        | some cs2 =>
          let cs3 := cs2.dropWhile isAlphaCh   -- [a-z]* under IGNORECASE
          let cs4 := cs3.dropWhile (fun c => isWsCh c || c = ',')
          let d2 := cs4.takeWhile isDigitCh
          if d2.length < 2 then none else some (d1, d2.take 4)
        | none => none
      else none
    | [] => none

def searchB : List Char → Option (List Char × List Char)
  | [] => none
  | c :: rest =>
    match matchB_at (c :: rest) with
    | some g => some g
    | none => searchB rest

/-- Pattern `(\d{4}) sep (\d{1,2}) sep (\d{1,2})` with separator class dash-or-slash matched at this
position. -/
def matchC_at (cs : List Char) : Option (List Char × List Char × List Char) :=
  let d1 := cs.takeWhile isDigitCh
  if d1.length ≠ 4 then none
  else
    match cs.drop 4 with
    | s1 :: cs1 =>
      if isSepCh s1 then
        let d2 := cs1.takeWhile isDigitCh
        if d2.length = 0 || 2 < d2.length then none
        else
          match cs1.drop d2.length with
          | s2 :: cs2 =>
            if isSepCh s2 then
              let d3 := cs2.takeWhile isDigitCh
              if d3.length = 0 then none else some (d1, d2, d3.take 2)
            else none
          | [] => none
      else none
    | [] => none

def searchC : List Char → Option (List Char × List Char × List Char)
  | [] => none
  | c :: rest =>
    match matchC_at (c :: rest) with
    | some g => some g
    | none => searchC rest

def isLeap (y : Nat) : Bool := y % 4 = 0 && (y % 100 ≠ 0 || y % 400 = 0)

def daysInMonth (y m : Nat) : Nat :=
  if m = 2 then (if isLeap y then 29 else 28)
  else if m = 4 || m = 6 || m = 9 || m = 11 then 30
  else 31

/-- `datetime.strptime(f"{g1}/{g2}/{g3}", "%d/%m/%Y")`: `%Y` requires
exactly four digits; `datetime` requires year ≥ 1 and a valid calendar
day.  Returns (year, month, day). -/
def strptime_dmY (g1 g2 g3 : List Char) : Option (Nat × Nat × Nat) :=
  if g1.length ≤ 2 && g2.length ≤ 2 && g3.length = 4 then
    let d := digitsToNat g1
    let m := digitsToNat g2
    let y := digitsToNat g3
    if 1 ≤ y && 1 ≤ m && m ≤ 12 && 1 ≤ d && d ≤ daysInMonth y m then
      some (y, m, d)
    else none
  else none

/-- `datetime.strptime(f"{g1}-{g2}-{g3}", "%Y-%m-%d")`. -/
def strptime_Ymd (g1 g2 g3 : List Char) : Option (Nat × Nat × Nat) :=
  if g1.length = 4 && g2.length ≤ 2 && g3.length ≤ 2 then
    let y := digitsToNat g1
    let m := digitsToNat g2
    let d := digitsToNat g3
    if 1 ≤ y && 1 ≤ m && m ≤ 12 && 1 ≤ d && d ≤ daysInMonth y m then
      some (y, m, d)
    else none
  else none

/-- `datetime.strptime(f"{g1}/{g2}/{g3}", "%d/%m/%y")`: `%y` requires
exactly two digits and maps 00-68 to 2000-2068, 69-99 to 1969-1999. -/
def strptime_dmy (g1 g2 g3 : List Char) : Option (Nat × Nat × Nat) :=
  if g1.length ≤ 2 && g2.length ≤ 2 && g3.length = 2 then
    let d := digitsToNat g1
    let m := digitsToNat g2
    let y2 := digitsToNat g3
    let y := if y2 ≤ 68 then 2000 + y2 else 1900 + y2
    if 1 ≤ m && m ≤ 12 && 1 ≤ d && d ≤ daysInMonth y m then
      some (y, m, d)
    else none
  else none

def pad2 (n : Nat) : String :=
  if n < 10 then "0" ++ toString n else toString n

def pad4 (n : Nat) : String :=
  if n < 10 then "000" ++ toString n
  else if n < 100 then "00" ++ toString n
  else if n < 1000 then "0" ++ toString n
  else toString n

/-- `date.strftime("%Y-%m-%d")`.  (`%Y` is zero-padded to four digits here;
for years below 1000 CPython delegates to the platform and glibc does not
pad, but every year the claims exercise is ≥ 1000, where the renderings
agree.) -/
def fmtDate : Nat × Nat × Nat → String
  | (y, m, d) => pad4 y ++ "-" ++ pad2 m ++ "-" ++ pad2 d

/-- The body of the `try:` block for a three-group match (lines 194-203):
four-digit third group → `%d/%m/%Y`; otherwise `%Y-%m-%d`, falling back to
`%d/%m/%y`; a `ValueError` yields `none` (the loop continues). -/
def handle3 (g1 g2 g3 : List Char) : Option String :=
  if g3.length = 4 then (strptime_dmY g1 g2 g3).map fmtDate
  else
    match strptime_Ymd g1 g2 g3 with
    | some ymd => some (fmtDate ymd)
    | none => (strptime_dmy g1 g2 g3).map fmtDate

/-- `ReceiptProcessor.extract_date` (lines 183-206).  Patterns are tried in
source order; a match of pattern 2 has only two groups, so the
`len(match.groups()) == 3` test fails, nothing is returned and the loop
moves on — pattern 2 can never produce a date. -/
def extract_date (text : String) : Option String :=
  match (searchA text.data).bind fun (g1, g2, g3) => handle3 g1 g2 g3 with
  | some d => some d
  | none =>
    match (searchB text.data).bind fun (_, _) => (none : Option String) with
    | some d => some d
    | none => (searchC text.data).bind fun (g1, g2, g3) => handle3 g1 g2 g3

/-! ## Merchant extraction (`extract_merchant`, lines 208-216) -/

/-- Python `str.strip()`: trim whitespace from both ends. -/
def stripWs (cs : List Char) : List Char :=
  ((cs.dropWhile isWsCh).reverse.dropWhile isWsCh).reverse

/-- `text.split('\n')`. -/
def splitNL : List Char → List (List Char)
  | [] => [[]]
  | '\n' :: rest => [] :: splitNL rest
  | c :: rest =>
    match splitNL rest with
    | l :: ls => (c :: l) :: ls
    | [] => [[c]]

/-- The administrative words skipped by `extract_merchant`. -/
def adminWords : List (List Char) :=
  ["bill".data, "invoice".data, "receipt".data, "date".data,
   "time".data, "gst".data, "tax".data]

/-- `ReceiptProcessor.extract_merchant` (lines 208-216): among the first
five lines, return the first stripped-non-empty line whose lower-casing
contains no administrative word and which contains an ASCII letter. -/
def extract_merchant (text : String) : Option String :=
  go ((splitNL text.data).take 5)
where
  go : List (List Char) → Option String
    | [] => none
    | line :: rest =>
      if (stripWs line).isEmpty = false
          && (adminWords.any (fun w => hasSub (lowerL line) w)) = false
          && line.any isAlphaCh then
        some (String.mk (stripWs line))
      else go rest

example : extract_merchant "MARIO PIZZERIA\nDate: 2024-01-15" = some "MARIO PIZZERIA" := by decide
example : extract_merchant "Tax Invoice\n  Star Cafe  \n123" = some "Star Cafe" := by decide
example : extract_merchant "12345\n???" = none := by decide

/-! ## Categorisation (`categorize_expense`, lines 218-525)

Each `PRIORITY n` block of the source is one entry of `rules`: the
category returned, the word used in the justification string, and the
keyword list in source order.  The blocks are identical in shape (loop
over keywords, return on first hit), so the cascade is embedded as a
first-match fold over the ordered rule list. -/

structure CategoryResult where
  category : String
  confidence : String
  reason : String
deriving DecidableEq, Repr

def accommodationKeywords : List String :=
  ["hotel", "resort", "lodge", "guest house", "homestay", "stay", "room rent",
   "booking hotel", "check-in", "night", "accommodation", "inn", "motel",
   "suite", "reservation", "hospitality", "rooms", "nights", "check in",
   "check out", "hotel bill", "room service", "room charge", "room rate",
   "lodging", "airbnb"]

def electricityKeywords : List String :=
  ["electricity bill", "power bill", "electric bill", "energy bill",
   "electricity", "power", "electric", "energy charge", "power supply",
   "bses", "tata power", "adani power", "reliance energy", "torrent power",
   "electricity board", "power board", "discom", "electric company",
   "power distribution", "electrical services", "power utilities",
   "energy services", "kwh", "unit consumption", "meter reading",
   "transmission charge", "distribution charge", "grid", "transformer"]

def foodKeywords : List String :=
  ["restaurant", "cafe", "coffee", "tea", "pizza", "burger", "biryani",
   "meal", "dining", "eat", "kitchen", "food", "swiggy", "zomato", "dominos",
   "mcdonalds", "kfc", "subway", "starbucks", "lunch", "dinner", "breakfast",
   "snack", "bakery", "diner", "bistro", "eatery", "canteen", "dhaba",
   "tiffin", "sweet", "juice", "lassi", "chai", "beverage", "ice cream",
   "dessert"]

def transportKeywords : List String :=
  ["cab", "taxi", "auto", "bus", "train", "metro", "flight", "airline",
   "air ticket", "uber", "ola", "journey", "railway", "airport", "petrol",
   "diesel", "fuel", "parking", "toll", "transport", "ride", "trip",
   "indigo", "spicejet", "air india", "railways", "irctc", "station",
   "platform"]

def shoppingKeywords : List String :=
  ["fashion", "clothing", "shirt", "dress", "shoes", "bag", "accessories",
   "myntra", "flipkart", "amazon", "reliance trends", "lifestyle",
   "westside", "mall", "shop", "store", "retail", "apparel", "garment",
   "jewelry", "watch", "sunglasses", "belt", "wallet", "footwear", "handbag"]

def healthcareKeywords : List String :=
  ["medical", "hospital", "pharmacy", "medicine", "doctor", "clinic",
   "health", "apollo", "fortis", "max", "medanta", "cipla", "chemist",
   "prescription", "dental", "dentist", "lab", "pathology", "diagnostic",
   "scan", "x-ray", "vaccination", "injection", "surgery", "treatment",
   "consultation", "therapy"]

def groceryKeywords : List String :=
  ["grocery", "supermarket", "mart", "vegetables", "fruits", "milk",
   "bread", "big bazaar", "dmart", "reliance fresh", "spencer", "more",
   "star bazaar", "household", "cleaning", "detergent", "soap", "shampoo",
   "toothpaste", "tissue", "toilet paper", "kitchen", "utensils",
   "provisions"]

def mobileKeywords : List String :=
  ["mobile", "internet", "wifi", "broadband", "data", "airtel", "jio",
   "vodafone", "bsnl", "recharge", "telecom", "sim", "phone", "prepaid",
   "postpaid", "network", "cellular", "smartphone"]

def entertainmentKeywords : List String :=
  ["movie", "cinema", "theatre", "entertainment", "games", "sports", "pvr",
   "inox", "book my show", "netflix", "amazon prime", "hotstar", "spotify",
   "youtube", "gaming", "concert", "show", "event", "movie ticket"]

def officeKeywords : List String :=
  ["stationery", "office supplies", "pen", "paper", "printer", "toner",
   "office", "workspace", "co-working"]

def utilityKeywords : List String :=
  ["water bill", "gas bill", "water supply bill", "municipal water",
   "water corporation", "gas corporation", "municipal corporation bill",
   "water board", "gas company", "lpg bill", "pipeline gas", "sewage bill",
   "drainage bill", "sanitation bill", "waste management", "municipal tax",
   "property tax bill", "water tank cleaning"]

def travelKeywords : List String :=
  ["vacation", "holiday", "tour", "package", "itinerary", "sightseeing",
   "visa", "passport", "travel agent", "travel insurance", "makemytrip",
   "cleartrip", "goibibo", "yatra", "booking.com", "agoda", "expedia",
   "travel booking"]

def educationKeywords : List String :=
  ["education", "course", "school", "college", "university", "tuition",
   "coaching", "training", "workshop", "seminar", "certification", "exam",
   "admission", "byju", "unacademy", "vedantu", "coursera", "udemy",
   "educational", "learning", "study"]

def homeKeywords : List String :=
  ["home", "furniture", "appliance", "repair", "maintenance", "renovation",
   "interior", "decoration", "painting", "plumbing", "electrical work",
   "carpenter", "maid", "cook", "babysitter", "family", "child care",
   "ikea", "pepperfry", "urban ladder", "godrej"]

def personalCareKeywords : List String :=
  ["salon", "spa", "beauty", "haircut", "massage", "facial", "manicure",
   "pedicure", "cosmetics", "makeup", "skincare", "grooming", "barber",
   "parlour", "wellness", "fitness", "gym", "yoga", "beauty salon",
   "hair salon", "nail salon"]

def giftsKeywords : List String :=
  ["gift", "festival", "celebration", "birthday", "anniversary", "wedding",
   "diwali", "christmas", "eid", "holi", "rakhi", "valentine", "party",
   "decoration", "flowers", "greeting card", "present", "occasion",
   "gift shop", "flower shop", "birthday gift", "anniversary gift"]

def emiKeywords : List String :=
  ["emi", "loan", "interest", "installment", "credit", "debt", "repayment",
   "mortgage", "finance", "bank", "hdfc", "icici", "sbi", "axis", "kotak",
   "bajaj finserv", "lending", "borrowing"]

def investmentKeywords : List String :=
  ["investment", "sip", "mutual fund", "stock", "share", "trading",
   "portfolio", "dividend", "returns", "zerodha", "groww", "upstox",
   "paytm money", "kuvera", "etmoney", "systematic investment", "equity",
   "bond", "fd", "rd", "ppf", "nps"]

/-- The PRIORITY 1-18 blocks of `categorize_expense`, in source order:
(category returned, justification word, keyword list). -/
def rules : List (String × String × List String) :=
  [("Accommodation", "accommodation", accommodationKeywords),
   ("Bills & Utilities", "electricity", electricityKeywords),
   ("Food & Dining", "food", foodKeywords),
   ("Transportation", "transport", transportKeywords),
   ("Shopping & Clothes", "shopping", shoppingKeywords),
   ("Healthcare", "healthcare", healthcareKeywords),
   ("Groceries & Household", "grocery", groceryKeywords),
   ("Mobile & Internet", "mobile/internet", mobileKeywords),
   ("Entertainment", "entertainment", entertainmentKeywords),
   ("Office Expense", "office", officeKeywords),
   ("Bills & Utilities", "utility", utilityKeywords),
   ("Travel & Vacation", "travel", travelKeywords),
   ("Education & Courses", "education", educationKeywords),
   ("Home & Family", "home/family", homeKeywords),
   ("Personal Care", "personal care", personalCareKeywords),
   ("Gifts & Festivals", "gifts/festival", giftsKeywords),
   ("EMI & Loans", "EMI/loan", emiKeywords),
   ("Investments & SIP", "investment", investmentKeywords)]

/-- `if keyword in text_lower or keyword in merchant_lower` (the loop
condition of every priority block). -/
def kwHit (tl ml : String) (kw : String) : Bool :=
  strHasSub tl kw || strHasSub ml kw

/-- The justification f-string of every priority block:
`Found {kind} keyword '{kw}' in {merchant name | receipt text}`. -/
def mkReason (kind kw : String) (inMerchant : Bool) : String :=
  "Found " ++ kind ++ " keyword '" ++ kw ++ "' in "
    ++ (if inMerchant then "merchant name" else "receipt text")

/-- The fallback return of `categorize_expense` (lines 521-525). -/
def fallbackResult : CategoryResult :=
  { category := "Other", confidence := "low",
    reason := "Could not determine category from available information - no matching keywords found" }

/-- First-match evaluation of the priority blocks. -/
def ruleMatch (tl ml : String) : List (String × String × List String) → Option CategoryResult
  | [] => none
  | (cat, kind, kws) :: rest =>
    match kws.find? (kwHit tl ml) with
    | some kw => some { category := cat, confidence := "high",
                        reason := mkReason kind kw (strHasSub ml kw) }
    | none => ruleMatch tl ml rest

/-- `ReceiptProcessor.categorize_expense` (lines 218-525).  The source
lower-cases text and merchant (`(merchant or "").lower()` — `none` is
passed as `""` by the caller), walks the priority blocks and returns the
fallback when nothing matches. -/
def categorize_expense (text merchant : String) : CategoryResult :=
  let tl := String.mk (lowerL text.data)
  let ml := String.mk (lowerL merchant.data)
  (ruleMatch tl ml rules).getD fallbackResult

example : categorize_expense "restaurant hotel" "" =
    { category := "Accommodation", confidence := "high",
      reason := "Found accommodation keyword 'hotel' in receipt text" } := by decide
example : categorize_expense "Lunch meal" "" =
    { category := "Food & Dining", confidence := "high",
      reason := "Found food keyword 'meal' in receipt text" } := by decide
example : categorize_expense "" "" = fallbackResult := by decide
example : categorize_expense "zzz" "Udupi Restaurant" =
    { category := "Food & Dining", confidence := "high",
      reason := "Found food keyword 'restaurant' in merchant name" } := by decide

/-! ## Line items (`extract_line_items`, lines 527-564) -/

structure LineItem where
  name : String
  amount : Nat
  quantity : Nat
deriving DecidableEq, Repr

/-- The summary-line alternation skipped by `extract_line_items`
(case-insensitive substring search). -/
def skipLineWords : List (List Char) :=
  ["total".data, "subtotal".data, "gst".data, "tax".data, "discount".data,
   "amount payable".data, "grand total".data, "net amount".data]

/-- The regex class `[\d,]`. -/
def isNumComma (c : Char) : Bool := isDigitCh c || c = ','

/-- `([\d,]+(?:\.\d{2}))\s*$` matched at this position: a run of digits
and commas, a dot, exactly two digits, then only whitespace to the end of
the line.  Only the maximal run can be followed by the dot, so greedy
matching is exact.  Value in paise of the captured group with commas
removed. -/
def matchTrailAt (cs : List Char) : Option Nat :=
  let run := cs.takeWhile isNumComma
  if run.isEmpty then none
  else
    match cs.drop run.length with
    | '.' :: a :: b :: rest =>
      if isDigitCh a && isDigitCh b && rest.all isWsCh then
        some (digitsToNat (run.filter isDigitCh) * 100
          + 10 * (a.toNat - '0'.toNat) + (b.toNat - '0'.toNat))
      else none
    | _ => none

/-- Leftmost match of the trailing-amount pattern: (start index, paise). -/
def searchTrail (cs : List Char) : Option (Nat × Nat) := go cs 0
where
  go : List Char → Nat → Option (Nat × Nat)
    | [], _ => none
    | c :: rest, i =>
      match (if isNumComma c then matchTrailAt (c :: rest) else none) with
      | some v => some (i, v)
      | none => go rest (i + 1)

/-- `₹\s*([\d,]+(?:\.\d{2}))` matched at this position (no end anchor). -/
def matchRupeeAt (cs : List Char) : Option Nat :=
  match cs with
  | '₹' :: r =>
    let r1 := r.dropWhile isWsCh
    let run := r1.takeWhile isNumComma
    if run.isEmpty then none
    else
      match r1.drop run.length with
      | '.' :: a :: b :: _ =>
        if isDigitCh a && isDigitCh b then
          some (digitsToNat (run.filter isDigitCh) * 100
            + 10 * (a.toNat - '0'.toNat) + (b.toNat - '0'.toNat))
        else none
      | _ => none
  | _ => none

def searchRupee (cs : List Char) : Option (Nat × Nat) := go cs 0
where
  go : List Char → Nat → Option (Nat × Nat)
    | [], _ => none
    | c :: rest, i =>
      match matchRupeeAt (c :: rest) with
      | some v => some (i, v)
      | none => go rest (i + 1)

/-- The quantity marker `(?:(\d+)\s*[xX]|[xX]\s*(\d+))` matched at this
position: (quantity, length of the whole match).  The two alternatives
start with disjoint character classes, so alternation order only follows
the source. -/
def matchQtyAt (cs : List Char) : Option (Nat × Nat) :=
  let ds := cs.takeWhile isDigitCh
  if ds.isEmpty then
    match cs with
    | c :: r =>
      if c = 'x' || c = 'X' then
        let sp := r.takeWhile isWsCh
        let ds2 := (r.drop sp.length).takeWhile isDigitCh
        if ds2.isEmpty then none
        else some (digitsToNat ds2, 1 + sp.length + ds2.length)
      else none
    | [] => none
  else
    let sp := (cs.drop ds.length).takeWhile isWsCh
    match cs.drop (ds.length + sp.length) with
    | c :: _ =>
      if c = 'x' || c = 'X' then some (digitsToNat ds, ds.length + sp.length + 1)
      else none
    | [] => none

/-- `re.search` of the quantity marker: first match's quantity. -/
def qtyFind : List Char → Option Nat
  | [] => none
  | c :: rest =>
    match matchQtyAt (c :: rest) with
    | some (q, _) => some q
    | none => qtyFind rest

/-- `re.sub` of the quantity marker with the empty string: delete every
non-overlapping leftmost match.  Fuel = input length (every step consumes
at least one character). -/
def qtySubGo : Nat → List Char → List Char
  | 0, _ => []
  | _, [] => []
  | fuel + 1, c :: rest =>
    match matchQtyAt (c :: rest) with
    | some (_, len) => qtySubGo fuel ((c :: rest).drop len)
    | none => c :: qtySubGo fuel rest

def qtySub (cs : List Char) : List Char := qtySubGo cs.length cs

/-- Lines 549-563: name from the text before the amount, quantity marker
parsed and stripped, item kept only when the remaining name is
non-empty. -/
def buildItem (namePart : List Char) (paise : Nat) : Option LineItem :=
  let name0 := stripWs namePart
  match qtyFind name0 with
  | some q =>
    let name1 := stripWs (qtySub name0)
    if name1.isEmpty then none
    else some { name := String.mk name1, amount := paise, quantity := q }
  | none =>
    if name0.isEmpty then none
    else some { name := String.mk name0, amount := paise, quantity := 1 }

/-- One line of `extract_line_items`: skip summary lines, then the
trailing-amount pattern, then the rupee-glyph pattern. -/
def lineItemOf (line : List Char) : Option LineItem :=
  if skipLineWords.any (fun w => hasSub (lowerL line) w) then none
  else
    match searchTrail line with
    | some (i, paise) => buildItem (line.take i) paise
    | none =>
      match searchRupee line with
      | some (i, paise) => buildItem (line.take i) paise
      | none => none

/-- `ReceiptProcessor.extract_line_items` (lines 527-564), in line
order. -/
def extract_line_items (text : String) : List LineItem :=
  (splitNL text.data).filterMap lineItemOf

example : extract_line_items "2 x Idli 40.00" =
    [{ name := "Idli", amount := 4000, quantity := 2 }] := by decide
example : extract_line_items "Subtotal 90.00\nDosa ₹55.00" =
    [{ name := "Dosa ₹", amount := 5500, quantity := 1 }] := by decide
example : extract_line_items "Dosa ₹55.50 each" =
    [{ name := "Dosa", amount := 5550, quantity := 1 }] := by decide

/-! ## Description synthesis (`generate_description`, lines 566-584) -/

/-- Python `", ".join`. -/
def joinComma : List String → String
  | [] => ""
  | [s] => s
  | s :: rest => s ++ ", " ++ joinComma rest

/-- `ReceiptProcessor.generate_description` (lines 566-584). -/
def generate_description (merchant : String) (items : List LineItem) (category : String) : String :=
  if merchant.isEmpty = false && items.isEmpty = false then
    match items with
    | [it] => it.name ++ " from " ++ merchant
    | _ =>
      if items.length ≤ 3 then
        joinComma (items.map (·.name)) ++ " from " ++ merchant
      else "Multiple items from " ++ merchant
  else if merchant.isEmpty = false then "Purchase from " ++ merchant
  else
    match items with
    | [] => "Expense - " ++ String.mk (lowerL category.data)
    | [it] => it.name
    | _ => "Multiple items - " ++ String.mk (lowerL category.data)

/-! ## Orchestration (`process_receipt`, lines 586-662)

The stages up to OCR (image decoding, `extract_text`) are external
collaborators; the claims under verification concern the pipeline from the
OCR text on, embedded as `process_receipt_fromText`.  `datetime.now()` is
passed in as the parameter `today`. -/

structure ProcessResult where
  success : Bool
  amount : Option Nat := none
  date : Option String := none
  merchant : Option String := none
  category : Option String := none
  category_confidence : Option String := none
  category_reason : Option String := none
  description : Option String := none
  items : List LineItem := []
  raw_text : Option String := none
  needs_confirmation : Option Bool := none
  error : Option String := none
  error_type : Option String := none
deriving DecidableEq, Repr

/-- Line 627: `text[:500] + "..." if len(text) > 500 else text`. -/
def truncRaw (text : String) : String :=
  if 500 < text.data.length then String.mk (text.data.take 500) ++ "..." else text

def missingAmountError : String :=
  "Could not find a valid amount in the receipt. Please ensure the receipt image is clear and contains readable text."

/-- Python falsiness of the extracted amount, the test `if not amount:` at
line 621: true for `None` and for `0.0`. -/
def isFalsyAmount : Option Nat → Bool
  | none => true
  | some v => v == 0

/-- `ReceiptProcessor.process_receipt` from successful OCR text on
(lines 606-645).  `if not amount:` tests Python falsiness — `None` or
`0.0`; `date or datetime.now().strftime(...)` takes the fallback on a
falsy (`None` or empty) date. -/
def process_receipt_fromText (text today : String) : ProcessResult :=
  let amount := extract_amount text
  let date := extract_date text
  let merchant := extract_merchant text
  let items := extract_line_items text
  let catres := categorize_expense text (merchant.getD "")
  let description := generate_description (merchant.getD "") items catres.category
  if isFalsyAmount amount then
    { success := false,
      error := some missingAmountError,
      error_type := some "validation",
      raw_text := some (truncRaw text) }
  else
    { success := true,
      amount := amount,
      date := some (match date with
                    | some d => if d.isEmpty then today else d
                    | none => today),
      merchant := merchant,
      category := some catres.category,
      category_confidence := some catres.confidence,
      category_reason := some catres.reason,
      description := some description,
      items := items,
      raw_text := some text,
      needs_confirmation := some (decide (catres.confidence = "low")) }

example : (process_receipt_fromText "Total: 100" "2024-05-05").success = true := by decide
example : (process_receipt_fromText "Total: 100" "2024-05-05").date = some "2024-05-05" := by decide
example : (process_receipt_fromText "Total: 0" "2024-05-05").success = false := by decide
example : (process_receipt_fromText "no digits" "2024-05-05").error_type = some "validation" := by decide

/-! ## Image normalisation parameters (`preprocess_image`, lines 71-122)

Only the arithmetic of the claims is embedded: the dimension policy and
the adaptive-threshold parameters.  `scale = 1200 / max_dimension` and
`int(w * scale)` are modelled by the exact rational floor
`w * 1200 / max` (Nat division); the claims carry a ±1 px rounding
allowance that absorbs the difference between exact rationals and IEEE
doubles. -/

/-- Lines 87-94: the resize policy, returning the (height, width) of the
image after the optional rescale. -/
def resizeDims (h w : Nat) : Nat × Nat :=
  let m := max h w
  if m < 1000 then (h * 1200 / m, w * 1200 / m)
  else if 4000 < m then (h * 4000 / m, w * 4000 / m)
  else (h, w)

/-- Python `x | 1` on a non-negative int: force the lowest bit. -/
def orOne (x : Nat) : Nat := if x % 2 = 0 then x + 1 else x

/-- Line 109: `block_size = max(3, int(min(h,w) * 0.02) | 1)`.  `h, w`
here are the dimensions read at line 83, BEFORE the resize at lines 91/94
(the source never rebinds them).  `int(min(h,w) * 0.02)` truncates; for
every `Nat` input the IEEE-double product and the exact rational agree
after truncation, so it is modelled as `min h w * 2 / 100`. -/
def blockSizeSrc (h w : Nat) : Nat := max 3 (orOne (min h w * 2 / 100))

/-- `preprocess_image` reduced to the decoded image's dimensions:
`none` on the minimum-size rejection (line 84), otherwise the post-resize
dimensions, the adaptive-threshold block size, and the threshold offset
constant passed at line 112. -/
def preprocessParams (h w : Nat) : Option (Nat × Nat × Nat × Nat) :=
  if h < 100 ∨ w < 100 then none
  else some ((resizeDims h w).1, (resizeDims h w).2, blockSizeSrc h w, 15)

/-- The block-size formula as the specification words it:
`max(3, round(min(height,width) * 0.02)) | 1` computed from the
dimensions of the image being thresholded, i.e. AFTER any rescaling
(rounding modelled half-up; the inputs used below are not half-way
cases). -/
def blockSizeClaim (hAfter wAfter : Nat) : Nat :=
  orOne (max 3 ((min hAfter wAfter * 2 + 50) / 100))

example : preprocessParams 500 800 = some (750, 1200, 11, 15) := by decide
example : blockSizeClaim 750 1200 = 15 := by decide
example : preprocessParams 50 800 = none := by decide

example : extract_date "15-01-2024" = some "2024-01-15" := by decide
example : extract_date "2024-01-15" = some "2015-01-24" := by decide
example : extract_date "15 Jan 2024" = none := by decide
example : extract_date "15/01/24" = some "2024-01-15" := by decide
example : extract_date "99-99-9999 then 2024-01-15" = some "2024-01-15" := by decide
example : extract_date "nothing here" = none := by decide
example : extract_date "2024-1-5" = some "2024-01-05" := by decide
example : extract_date "29-02-2023" = none := by decide

example : extract_amount "Total: 100\nGrand Total: 500" = some 50000 := by decide
example : extract_amount "Grand Total: 2,500.50" = some 250050 := by decide
example : extract_amount "idli 40.00\ndosa 90.00" = some 9000 := by decide
example : extract_amount "no digits here" = none := by decide
example : extract_amount "Total: 0" = some 0 := by decide
example : extract_amount "Ph: 9876543210" = some 98700 := by decide

/-! # The claims -/

/-- C1: the claim states that an input containing both `restaurant` and
`hotel` is categorised as Food & Dining.  The code checks the
accommodation block first (PRIORITY 1), although its own comment at the
Food & Dining block says food "must come before accommodation to avoid
'restaurant' confusion": on such an input `categorize_expense` returns
Accommodation, matched on the keyword `hotel`. -/
theorem C1_restaurant_hotel_code :
    categorize_expense "restaurant hotel" "" =
      { category := "Accommodation", confidence := "high",
        reason := "Found accommodation keyword 'hotel' in receipt text" } := by
  decide

/-- C3 counterexample: `extract_date` is not round-trip stable on
`2024-01-15` — the trailing `24-01-15` matches the first (DD-MM-YY)
pattern before the ISO pattern is tried. -/
theorem C3_roundtrip_cex :
    ¬ (extract_date "2024-01-15" = some "2024-01-15") := by decide

/-- C3 (amended): `extract_date` maps `15-01-2024` to `2024-01-15`, but on
the already-normalised `2024-01-15` it returns `2015-01-24`: the substring
`24-01-15` matches pattern 1 first and is parsed as `%d/%m/%y`. -/
theorem C3_date_normalization :
    extract_date "15-01-2024" = some "2024-01-15" ∧
    extract_date "2024-01-15" = some "2015-01-24" := by decide

/-- C4: the claim states that `15 Jan 2024` yields `2024-01-15`.  In the
code the `DD Mon YYYY` pattern has only two capture groups (the month
alternation is non-capturing), so the `len(match.groups()) == 3` branch
never fires for it and the pattern can never return a date: the code
yields `None` on `15 Jan 2024`.  The rest of the claim does hold: the
patterns are tried in the stated order, a match that fails calendar
validation is skipped with later patterns still tried, and `None` is
returned when nothing validates. -/
theorem C4_ddmon_dead :
    extract_date "15 Jan 2024" = none ∧
    (matchB_at "15 Jan 2024".data).isSome = true ∧
    extract_date "99-99-9999 then 2024-01-15" = some "2024-01-15" ∧
    extract_date "nothing here" = none := by decide

/-- C5: `extract_amount` prefers an explicitly labelled total — the
specific labels `grand total`, `net amount`, `amount payable`,
`bill total` before a bare `total` (even one occurring earlier in the
text) — then falls back to the numerically largest currency-like number
anywhere in the text, and returns null when nothing parses. -/
theorem C5_amount_priority :
    extract_amount "Total: 100\nGrand Total: 500" = some 50000 ∧
    extract_amount "Total: 100\nNet Amount: 2,500.50" = some 250050 ∧
    extract_amount "Total: 100\nAmount Payable: 75" = some 7500 ∧
    extract_amount "Total: 100\nBill Total: 99" = some 9900 ∧
    extract_amount "Total: 40" = some 4000 ∧
    extract_amount "Total: N/A\nidli 12.00\ndosa 90.00\nchutney 20.00" = some 9000 ∧
    extract_amount "no digits here" = none := by decide

/-- Helper for C7: rescaling both dimensions by `t / max h w` (exact
rational floor) sends the longer side exactly to `t`. -/
theorem scale_max (h w t : Nat) (hm : 0 < max h w) :
    max (h * t / max h w) (w * t / max h w) = t := by
  rcases Nat.le_total h w with hle | hle
  · rw [max_eq_right hle] at hm ⊢
    have h2 : w * t / w = t := Nat.mul_div_cancel_left t hm
    have h1 : h * t / w ≤ t := by
      calc h * t / w ≤ w * t / w := Nat.div_le_div_right (Nat.mul_le_mul_right t hle)
        _ = t := h2
    rw [h2]
    exact max_eq_right h1
  · rw [max_eq_left hle] at hm ⊢
    have h2 : h * t / h = t := Nat.mul_div_cancel_left t hm
    have h1 : w * t / h ≤ t := by
      calc w * t / h ≤ h * t / h := Nat.div_le_div_right (Nat.mul_le_mul_right t hle)
        _ = t := h2
    rw [h2]
    exact max_eq_left h1

/-- C7: for every decodable image with both dimensions at least 100 px,
after `preprocess_image`'s resize step the longer side is exactly 1200
when the input's longer side is below 1000, exactly 4000 when it exceeds
4000, and the dimensions are unchanged otherwise (floats modelled as
exact rationals; the claim's ±1 px allowance is not needed in the exact
model). -/
theorem C7_resize_dims (h w : Nat) (hh : 100 ≤ h) (hw : 100 ≤ w) :
    (max h w < 1000 → max (resizeDims h w).1 (resizeDims h w).2 = 1200) ∧
    (4000 < max h w → max (resizeDims h w).1 (resizeDims h w).2 = 4000) ∧
    (1000 ≤ max h w → max h w ≤ 4000 → resizeDims h w = (h, w)) := by
  have hm : 0 < max h w := lt_of_lt_of_le (by norm_num) (le_trans hh (le_max_left h w))
  refine ⟨fun hlt => ?_, fun hgt => ?_, fun h1 h2 => ?_⟩
  · simp only [resizeDims, if_pos hlt]
    exact scale_max h w 1200 hm
  · simp only [resizeDims, if_neg (by omega : ¬ max h w < 1000), if_pos hgt]
    exact scale_max h w 4000 hm
  · simp only [resizeDims, if_neg (by omega : ¬ max h w < 1000),
      if_neg (by omega : ¬ 4000 < max h w)]

/-- C7 witness: the three branches at concrete dimensions — 150×200
upscales to longer side 1200, 5000×4500 downscales to longer side 4000,
2000×1500 is left unchanged. -/
theorem C7_resize_dims_witness :
    max (resizeDims 150 200).1 (resizeDims 150 200).2 = 1200 ∧
    max (resizeDims 5000 4500).1 (resizeDims 5000 4500).2 = 4000 ∧
    resizeDims 2000 1500 = (2000, 1500) :=
  ⟨(C7_resize_dims 150 200 (by decide) (by decide)).1 (by decide),
   (C7_resize_dims 5000 4500 (by decide) (by decide)).2.1 (by decide),
   (C7_resize_dims 2000 1500 (by decide) (by decide)).2.2 (by decide) (by decide)⟩

/-- C8 counterexample: at a decoded size of 500×800 the image is rescaled
to 750×1200, the spec's formula on those post-rescale dimensions gives a
block size of 15, but the code computes 11 — it truncates (not rounds)
and uses the dimensions read BEFORE the resize. -/
theorem C8_block_size_cex :
    preprocessParams 500 800 = some (750, 1200, blockSizeSrc 500 800, 15) ∧
    ¬ (blockSizeSrc 500 800 = blockSizeClaim 750 1200) := by decide

/-- C8 (amended): the adaptive-threshold block size is
`max(3, trunc(min(h, w) * 0.02) | 1)` where `h`, `w` are the dimensions of
the decoded image BEFORE any rescaling (the source reads them at line 83
and never rebinds them), and the offset constant is 15. -/
theorem C8_block_size (h w : Nat) (hh : 100 ≤ h) (hw : 100 ≤ w) :
    preprocessParams h w =
      some ((resizeDims h w).1, (resizeDims h w).2,
        max 3 (orOne (min h w * 2 / 100)), 15) := by
  unfold preprocessParams blockSizeSrc
  rw [if_neg (by omega)]

/-- C8 witness: the amended block-size formula evaluated at 500×800. -/
theorem C8_block_size_witness :
    preprocessParams 500 800 =
      some ((resizeDims 500 800).1, (resizeDims 500 800).2,
        max 3 (orOne (min 500 800 * 2 / 100)), 15) :=
  C8_block_size 500 800 (by decide) (by decide)

/-- Helper: the record `process_receipt_fromText` builds when the amount
test fails (the `MissingAmount` validation failure of lines 621-628). -/
def missingAmountRecord (text : String) : ProcessResult :=
  { success := false,
    error := some missingAmountError,
    error_type := some "validation",
    raw_text := some (truncRaw text) }

/-- Helper: on a falsy amount the pipeline returns the missing-amount
validation failure. -/
theorem process_falsy (text today : String)
    (h : isFalsyAmount (extract_amount text) = true) :
    process_receipt_fromText text today = missingAmountRecord text := by
  unfold process_receipt_fromText missingAmountRecord
  simp only [h, if_true]

/-- Helper: on a truthy amount the pipeline returns the success record. -/
theorem process_truthy (text today : String)
    (h : isFalsyAmount (extract_amount text) = false) :
    process_receipt_fromText text today =
      { success := true,
        amount := extract_amount text,
        date := some (match extract_date text with
                      | some d => if d.isEmpty then today else d
                      | none => today),
        merchant := extract_merchant text,
        category := some (categorize_expense text ((extract_merchant text).getD "")).category,
        category_confidence := some (categorize_expense text ((extract_merchant text).getD "")).confidence,
        category_reason := some (categorize_expense text ((extract_merchant text).getD "")).reason,
        description := some (generate_description ((extract_merchant text).getD "")
          (extract_line_items text)
          (categorize_expense text ((extract_merchant text).getD "")).category),
        items := extract_line_items text,
        raw_text := some text,
        needs_confirmation :=
          some (decide ((categorize_expense text ((extract_merchant text).getD "")).confidence = "low")) } := by
  unfold process_receipt_fromText
  simp only [h, Bool.false_eq_true, if_false]

/-- C9: `extract_amount` can return exactly zero (e.g. when the only
labelled total parses as 0), and because line 621 tests falsiness rather
than nullness, `process_receipt` then takes the same missing-amount
validation-failure path as when the amount is null instead of producing a
success record. -/
theorem C9_zero_amount (text today : String) (h : extract_amount text = some 0) :
    process_receipt_fromText text today = missingAmountRecord text ∧
    (process_receipt_fromText text today).success = false ∧
    (process_receipt_fromText text today).error_type = some "validation" := by
  have hf : isFalsyAmount (extract_amount text) = true := by rw [h]; rfl
  refine ⟨process_falsy text today hf, ?_, ?_⟩ <;>
    rw [process_falsy text today hf] <;> rfl

/-- C9 witness: the receipt text `Total: 0` extracts amount 0 and is
rejected as a validation failure. -/
theorem C9_zero_amount_witness :
    extract_amount "Total: 0" = some 0 ∧
    process_receipt_fromText "Total: 0" "2024-05-05" = missingAmountRecord "Total: 0" :=
  ⟨by decide, (C9_zero_amount "Total: 0" "2024-05-05" (by decide)).1⟩

/-- C2: a record returned with `success = true` always carries a non-null
amount and a non-null date (the date defaults to the processing date when
extraction yields null); and whenever `extract_amount` returns null the
pipeline returns the validation-class failure with the raw OCR text
attached, truncated to at most 500 characters plus an ellipsis (so the
attached text never exceeds 503 characters). -/
theorem C2_success_invariant (text today : String) :
    ((process_receipt_fromText text today).success = true →
      (process_receipt_fromText text today).amount.isSome = true ∧
      (process_receipt_fromText text today).date.isSome = true) ∧
    (extract_amount text = none →
      (process_receipt_fromText text today).success = false ∧
      (process_receipt_fromText text today).error_type = some "validation" ∧
      (process_receipt_fromText text today).raw_text = some (truncRaw text)) ∧
    (truncRaw text).data.length ≤ 503 := by
  refine ⟨fun hs => ?_, fun hn => ?_, ?_⟩
  · cases hf : isFalsyAmount (extract_amount text) with
    | true =>
      rw [process_falsy text today hf] at hs
      simp [missingAmountRecord] at hs
    | false =>
      rw [process_truthy text today hf]
      cases ha : extract_amount text with
      | none => rw [ha] at hf; exact absurd hf (by decide)
      | some v => exact ⟨rfl, rfl⟩
  · have hf : isFalsyAmount (extract_amount text) = true := by rw [hn]; rfl
    rw [process_falsy text today hf]
    exact ⟨rfl, rfl, rfl⟩
  · unfold truncRaw
    by_cases hl : 500 < text.data.length
    · rw [if_pos hl]
      have h1 : (String.mk (text.data.take 500) ++ "...").data
          = text.data.take 500 ++ ['.', '.', '.'] := rfl
      rw [h1, List.length_append, List.length_take]
      show min 500 text.data.length + 3 ≤ 503
      omega
    · rw [if_neg hl]
      omega

/-- C2 witness: the two implications discharged at concrete inputs — a
receipt with a labelled total yields a success record with amount and
date present (date defaulting to the processing date), and a digit-free
text yields the validation failure with the raw text attached. -/
theorem C2_success_invariant_witness :
    ((process_receipt_fromText "Total: 100" "2024-05-05").amount.isSome = true ∧
     (process_receipt_fromText "Total: 100" "2024-05-05").date.isSome = true) ∧
    ((process_receipt_fromText "no amount here" "2024-05-05").success = false ∧
     (process_receipt_fromText "no amount here" "2024-05-05").error_type = some "validation" ∧
     (process_receipt_fromText "no amount here" "2024-05-05").raw_text
       = some (truncRaw "no amount here")) :=
  ⟨(C2_success_invariant "Total: 100" "2024-05-05").1 (by decide),
   (C2_success_invariant "no amount here" "2024-05-05").2.1 (by decide)⟩

/-! ## C6: totality of the categoriser -/

/-- Does any keyword of any rule hit the lower-cased text/merchant pair? -/
def anyKeywordHit (text merchant : String) : Bool :=
  rules.any fun r =>
    r.2.2.any (kwHit (String.mk (lowerL text.data)) (String.mk (lowerL merchant.data)))

/-- Helper: when no rule's keyword hits, the cascade falls through. -/
theorem ruleMatch_none (tl ml : String) (rs : List (String × String × List String))
    (h : rs.any (fun r => r.2.2.any (kwHit tl ml)) = false) :
    ruleMatch tl ml rs = none := by
  induction rs with
  | nil => rfl
  | cons r rest ih =>
    obtain ⟨cat, kind, kws⟩ := r
    rw [List.any_cons, Bool.or_eq_false_iff] at h
    have h1 : kws.any (kwHit tl ml) = false := h.1
    have hfind : kws.find? (kwHit tl ml) = none := by
      rw [List.find?_eq_none]
      intro x hx hpx
      have hx1 : kws.any (kwHit tl ml) = true := List.any_eq_true.mpr ⟨x, hx, hpx⟩
      rw [h1] at hx1
      cases hx1
    simp only [ruleMatch, hfind]
    exact ih h.2

/-- Helper: when some rule's keyword hits, the cascade returns a result. -/
theorem ruleMatch_isSome (tl ml : String) (rs : List (String × String × List String))
    (h : rs.any (fun r => r.2.2.any (kwHit tl ml)) = true) :
    (ruleMatch tl ml rs).isSome = true := by
  induction rs with
  | nil => simp at h
  | cons r rest ih =>
    obtain ⟨cat, kind, kws⟩ := r
    cases hfind : kws.find? (kwHit tl ml) with
    | some kw => simp only [ruleMatch, hfind]; rfl
    | none =>
      have h1 : kws.any (kwHit tl ml) = false := by
        cases hany : kws.any (kwHit tl ml) with
        | false => rfl
        | true =>
          obtain ⟨x, hx, hpx⟩ := List.any_eq_true.mp hany
          exact absurd hpx (by simpa using List.find?_eq_none.mp hfind x hx)
      rw [List.any_cons] at h
      have h2 : rest.any (fun r => r.2.2.any (kwHit tl ml)) = true := by
        have hh : (kws.any (kwHit tl ml)
            || rest.any (fun r => r.2.2.any (kwHit tl ml))) = true := h
        rw [h1, Bool.false_or] at hh
        exact hh
      simp only [ruleMatch, hfind]
      exact ih h2

/-- Helper: every result the cascade produces has confidence `high` and a
justification naming the matched keyword and where it was found. -/
theorem ruleMatch_some (tl ml : String) (rs : List (String × String × List String))
    (res : CategoryResult) (h : ruleMatch tl ml rs = some res) :
    res.confidence = "high" ∧
    ∃ kind kw, kwHit tl ml kw = true ∧
      res.reason = mkReason kind kw (strHasSub ml kw) := by
  induction rs with
  | nil => exact absurd h (by simp [ruleMatch])
  | cons r rest ih =>
    obtain ⟨cat, kind, kws⟩ := r
    cases hfind : kws.find? (kwHit tl ml) with
    | some kw =>
      have heq : ruleMatch tl ml ((cat, kind, kws) :: rest) =
          some { category := cat, confidence := "high",
                 reason := mkReason kind kw (strHasSub ml kw) } := by
        simp only [ruleMatch, hfind]
      rw [heq] at h
      cases h
      exact ⟨rfl, kind, kw, List.find?_some hfind, rfl⟩
    | none =>
      have heq : ruleMatch tl ml ((cat, kind, kws) :: rest) = ruleMatch tl ml rest := by
        simp only [ruleMatch, hfind]
      rw [heq] at h
      exact ih h

/-- C6: `categorize_expense` is total — it always returns a result.  When
no rule's keyword is contained (case-insensitive substring) in the
lower-cased union of text and merchant it returns `Other` with confidence
`low` and the generic justification; every keyword match returns
confidence `high` with a justification naming the matched keyword and
whether it was found in the merchant name or the receipt text. -/
theorem C6_categorizer_total (text merchant : String) :
    (anyKeywordHit text merchant = false →
      categorize_expense text merchant = fallbackResult) ∧
    (anyKeywordHit text merchant = true →
      (categorize_expense text merchant).confidence = "high" ∧
      ∃ kind kw,
        kwHit (String.mk (lowerL text.data)) (String.mk (lowerL merchant.data)) kw = true ∧
        (categorize_expense text merchant).reason
          = mkReason kind kw (strHasSub (String.mk (lowerL merchant.data)) kw)) := by
  constructor
  · intro h
    unfold anyKeywordHit at h
    show (ruleMatch (String.mk (lowerL text.data)) (String.mk (lowerL merchant.data))
      rules).getD fallbackResult = fallbackResult
    rw [ruleMatch_none _ _ rules h]
    rfl
  · intro h
    unfold anyKeywordHit at h
    have hs := ruleMatch_isSome (String.mk (lowerL text.data))
      (String.mk (lowerL merchant.data)) rules h
    cases hr : ruleMatch (String.mk (lowerL text.data))
        (String.mk (lowerL merchant.data)) rules with
    | none => rw [hr] at hs; cases hs
    | some res =>
      obtain ⟨h1, kind, kw, h2, h3⟩ := ruleMatch_some _ _ _ _ hr
      have hc : categorize_expense text merchant = res := by
        show (ruleMatch (String.mk (lowerL text.data))
          (String.mk (lowerL merchant.data)) rules).getD fallbackResult = res
        rw [hr]
        rfl
      rw [hc]
      exact ⟨h1, kind, kw, h2, h3⟩

/-- C6 witness: on empty inputs no keyword hits and the fallback
`Other`/`low` result is returned; on the text `hotel` a keyword hits and
the result carries confidence `high` with the keyword-naming reason. -/
theorem C6_categorizer_total_witness :
    categorize_expense "" "" = fallbackResult ∧
    ((categorize_expense "hotel" "").confidence = "high" ∧
     ∃ kind kw,
       kwHit (String.mk (lowerL "hotel".data)) (String.mk (lowerL "".data)) kw = true ∧
       (categorize_expense "hotel" "").reason
         = mkReason kind kw (strHasSub (String.mk (lowerL "".data)) kw)) :=
  ⟨(C6_categorizer_total "" "").1 (by decide),
   (C6_categorizer_total "hotel" "").2 (by decide)⟩

/-! ## C10: the amount extractor fires exactly on texts with a digit -/

/-- Helper: membership in a sublist preserves "no digit". -/
theorem sublist_nodigit {l' l : List Char} (hs : l'.Sublist l)
    (h : ∀ c ∈ l, isDigitCh c = false) : ∀ c ∈ l', isDigitCh c = false :=
  fun c hc => h c (hs.subset hc)

/-- Helper: a successful label match leaves a sublist of the input. -/
theorem matchCI_sublist : ∀ {n h r : List Char}, matchCI n h = some r → r.Sublist h := by
  intro n
  induction n with
  | nil =>
    intro h r e
    cases e
    exact List.Sublist.refl h
  | cons a ns ih =>
    intro h r e
    cases h with
    | nil => exact absurd e (by simp [matchCI])
    | cons b hs =>
      unfold matchCI at e
      split at e
      · exact (ih e).trans (List.sublist_cons_self b hs)
      · exact absurd e (by simp)

/-- Helper: no digit at the head, no number parsed. -/
theorem parseNumAt_none {cs : List Char} (h : ∀ c ∈ cs, isDigitCh c = false) :
    parseNumAt cs = none := by
  cases cs with
  | nil => rfl
  | cons c rest =>
    have hc : isDigitCh c = false := h c (List.mem_cons_self c rest)
    simp [parseNumAt, List.takeWhile_cons, hc]

/-- Helper: a digit at the head always yields a parsed number. -/
theorem parseNumAt_isSome (c : Char) (rest : List Char) (hc : isDigitCh c = true) :
    (parseNumAt (c :: rest)).isSome = true := by
  unfold parseNumAt
  rw [show ((c :: rest).takeWhile isDigitCh).take 3
      = c :: ((rest.takeWhile isDigitCh).take 2) from by
    simp [List.takeWhile_cons, hc]]
  rfl

/-- Helper: with no digit anywhere the labelled-number tail fails. -/
theorem afterLabelNum_none {cs : List Char} (h : ∀ c ∈ cs, isDigitCh c = false) :
    afterLabelNum cs = none := by
  simp only [afterLabelNum]
  have h1 : ∀ c ∈ cs.dropWhile (fun c => c = ':' || isWsCh c), isDigitCh c = false :=
    sublist_nodigit (List.dropWhile_sublist _) h
  by_cases hh : (cs.dropWhile (fun c => c = ':' || isWsCh c)).head? = some '₹'
  · rw [if_pos hh, parseNumAt_none
      (sublist_nodigit ((List.dropWhile_sublist _).trans (List.tail_sublist _)) h1)]
    rfl
  · rw [if_neg hh, parseNumAt_none h1]
    rfl

/-- Helper: with no digit anywhere no label alternative matches. -/
theorem tryLabelsAt_none (L : List (List Char)) {cs : List Char}
    (h : ∀ c ∈ cs, isDigitCh c = false) : tryLabelsAt L cs = none := by
  induction L with
  | nil => rfl
  | cons l ls ih =>
    cases hm : matchCI l cs with
    | none => simp only [tryLabelsAt, hm]; exact ih
    | some rest =>
      simp only [tryLabelsAt, hm,
        afterLabelNum_none (sublist_nodigit (matchCI_sublist hm) h)]
      exact ih

/-- Helper: with no digit anywhere the labelled search fails. -/
theorem searchLabeled_none (L : List (List Char)) :
    ∀ {cs : List Char}, (∀ c ∈ cs, isDigitCh c = false) → searchLabeled L cs = none := by
  intro cs
  induction cs with
  | nil => intro _; rfl
  | cons c rest ih =>
    intro h
    simp only [searchLabeled, tryLabelsAt_none L h]
    exact ih fun x hx => h x (List.mem_cons_of_mem c hx)

/-- Helper: with no digit anywhere the fallback collects nothing. -/
theorem findallGo_nil : ∀ (fuel : Nat) {cs : List Char},
    (∀ c ∈ cs, isDigitCh c = false) → findallGo fuel cs = [] := by
  intro fuel
  induction fuel with
  | zero => intro cs _; cases cs <;> rfl
  | succ n ih =>
    intro cs h
    cases cs with
    | nil => rfl
    | cons c rest =>
      have hc : isDigitCh c = false := h c (List.mem_cons_self c rest)
      simp only [findallGo, hc, Bool.false_eq_true, if_false]
      exact ih fun x hx => h x (List.mem_cons_of_mem c hx)

/-- Helper: a digit-free text extracts no amount. -/
theorem extract_amount_none {text : String}
    (h : ∀ c ∈ text.data, isDigitCh c = false) : extract_amount text = none := by
  unfold extract_amount
  rw [searchLabeled_none totalLabels1 h, searchLabeled_none totalLabels2 h,
    show findallNums text.data = [] from findallGo_nil _ h]

/-- Helper: a text with a digit always yields a fallback capture. -/
theorem findallGo_ne_nil : ∀ (fuel : Nat) (cs : List Char), cs.length ≤ fuel →
    cs.any isDigitCh = true → findallGo fuel cs ≠ [] := by
  intro fuel
  induction fuel with
  | zero =>
    intro cs hl ha
    have : cs = [] := List.eq_nil_of_length_eq_zero (Nat.le_zero.mp hl)
    subst this
    simp at ha
  | succ n ih =>
    intro cs hl ha
    cases cs with
    | nil => simp at ha
    | cons c rest =>
      cases hc : isDigitCh c with
      | true =>
        obtain ⟨⟨v, r⟩, heq⟩ := Option.isSome_iff_exists.mp (parseNumAt_isSome c rest hc)
        simp only [findallGo, hc, if_true, heq]
        exact List.cons_ne_nil v _
      | false =>
        have ha' : rest.any isDigitCh = true := by
          rw [List.any_cons, hc, Bool.false_or] at ha
          exact ha
        simp only [findallGo, hc, Bool.false_eq_true, if_false]
        exact ih rest (Nat.le_of_succ_le_succ (by simpa using hl)) ha'

/-- C10: `extract_amount` returns a value exactly when the text contains
an ASCII digit — the fallback regex matches any digit run, not only
currency-formatted tokens, so a text whose only number is e.g. a phone
number still yields an amount (its largest at-most-three-digit capture),
and a digit-free text yields null. -/
theorem C10_amount_iff_digit (text : String) :
    (extract_amount text).isSome = text.data.any isDigitCh ∧
    extract_amount "Call 9876543210 for details" = some 98700 := by
  constructor
  · cases hb : text.data.any isDigitCh with
    | false =>
      have h : ∀ c ∈ text.data, isDigitCh c = false := by
        intro c hc
        cases hcc : isDigitCh c with
        | false => rfl
        | true =>
          have : text.data.any isDigitCh = true := List.any_eq_true.mpr ⟨c, hc, hcc⟩
          rw [hb] at this
          cases this
      rw [extract_amount_none h]
      rfl
    | true =>
      unfold extract_amount
      cases h1 : searchLabeled totalLabels1 text.data with
      | some v => rfl
      | none =>
        cases h2 : searchLabeled totalLabels2 text.data with
        | some v => rfl
        | none =>
          cases hf : findallNums text.data with
          | nil => exact absurd hf (findallGo_ne_nil text.data.length text.data le_rfl hb)
          | cons a as => rfl
  · decide

end RupeeFlow
